import Mathlib

/-!
# FutureProof AI — verification of the Role & Skill Inference Engine

Shallow embedding of `src/app.py` (the single consolidated Streamlit script).
External collaborators (the Groq chat-completion endpoint, Python's
`json.loads`, wall-clock timestamps, Streamlit widgets) are modelled as
explicit parameters or small operational models; every definition below is
translated from the source, with the source line cited in its doc comment.

Conventions:
* Python `None`-or-`str` values are `Option String`; the `or` fallback idiom
  `x or d` (which also replaces the falsy empty string) is `pyOrStr`.
* Python's `json.loads` is a parameter `loads : String → Option Json`
  (`none` = the parse raised); Python truthiness of a parsed value is
  `Json.truthy`.
* Seconds slept and attempt/event counts are natural numbers; wall-clock
  timestamp strings are not modelled (they carry no logic).
-/

namespace FutureProof

/-! ## Python `str` primitives

The source manipulates Python strings with `.strip()`, `.lower()`,
`.title()`, `.split(...)`, `.replace(..., "")` and `re.split`.  These are
modelled here by structural recursion over the character list (ASCII
fragment; all string constants in the source and in the claims are ASCII),
so that every definition evaluates inside the kernel. -/

/-- The whitespace characters removed by Python `str.strip()` (ASCII
fragment: space, tab, newline, carriage return, vertical tab, form feed). -/
def pyIsSpace (c : Char) : Bool :=
  c = ' ' || c = '\t' || c = '\n' || c = '\r' || c.toNat = 11 || c.toNat = 12

/-- Python `str.strip()` on a character list: drop whitespace from both
ends. -/
def pyStripList (cs : List Char) : List Char :=
  ((cs.dropWhile pyIsSpace).reverse.dropWhile pyIsSpace).reverse

/-- Python `str.strip()`. -/
def pyStrip (s : String) : String :=
  String.mk (pyStripList s.toList)

/-- Python `str.lower()` (ASCII fragment). -/
def pyLower (s : String) : String :=
  String.mk (s.toList.map Char.toLower)

/-- Python `str.split(sep)` / `re.split` with a single-character class:
split at every character satisfying `p`; adjacent separators yield empty
fields and `"".split(sep) == [""]`. -/
def pySplitChars (p : Char → Bool) (cs : List Char) : List (List Char) :=
  cs.foldr
    (fun c acc =>
      if p c then [] :: acc
      else
        match acc with
        | [] => [[c]]
        | g :: gs => (c :: g) :: gs)
    [[]]

/-- Python `s.split(sep)` for a one-character separator. -/
def pySplit (sep : Char) (s : String) : List String :=
  (pySplitChars (fun c => c = sep) s.toList).map String.mk

/-- Remove every occurrence of `pat` from `cs`, scanning left to right
(Python `s.replace(pat, "")`); `fuel` bounds the recursion and is
instantiated with the length of `cs`. -/
def removeAllAux (pat : List Char) : ℕ → List Char → List Char
  | 0, cs => cs
  | _ + 1, [] => []
  | fuel + 1, c :: cs =>
    if pat ≠ [] && pat.isPrefixOf (c :: cs) then
      removeAllAux pat fuel ((c :: cs).drop pat.length)
    else
      c :: removeAllAux pat fuel cs

/-- Python `s.replace(pat, "")`. -/
def pyReplaceEmpty (pat s : String) : String :=
  String.mk (removeAllAux pat.toList s.toList.length s.toList)

/-- Python `x or default` on a `str`-or-`None` value: `None` and the empty
string are falsy, so both select the default (used at `app.py:175-178`,
`189-192`, `255`, `267-268`). -/
def pyOrStr (x : Option String) (default : String) : String :=
  match x with
  | none => default
  | some s => if s = "" then default else s

/-- `normalize_skills` (`app.py:157-159`):
`[s.strip().lower() for s in skills_input.split(",") if s.strip()]` then
`list(set(...))`.  CPython's `set` iteration order is unspecified, so the
`list(set(...))` step is modelled as first-occurrence deduplication; only
set-level facts (membership, nodup) are claimed of the result. -/
def normalize_skills (skills_input : String) : List String :=
  (((pySplit ',' skills_input).filter (fun s => pyStrip s ≠ "")).map
      (fun s => pyLower (pyStrip s))).dedup

/-- Values produced by Python's `json.loads`. -/
inductive Json where
  | null : Json
  | bool : Bool → Json
  | num : ℚ → Json
  | str : String → Json
  | arr : List Json → Json
  | obj : List (String × Json) → Json

/-- Python truthiness of a parsed JSON value: `None`, `False`, `0`, `""`,
`[]` and `{}` are falsy. -/
def Json.truthy : Json → Bool
  | .null => false
  | .bool b => b
  | .num q => decide (q ≠ 0)
  | .str s => decide (s ≠ "")
  | .arr xs => !xs.isEmpty
  | .obj fs => !fs.isEmpty

/-- Python `x or default` where `x` is a `Json`-value-or-`None`
(`app.py:247`, `287` feed `safe_json_load` results through `or` / `if`). -/
def pyOrJson (x : Option Json) (default : Json) : Json :=
  match x with
  | none => default
  | some j => if j.truthy then j else default

/-- Python truthiness of a `Json`-value-or-`None` (`if questions:` at
`app.py:443`). -/
def pyTruthyOpt : Option Json → Bool
  | none => false
  | some j => j.truthy

/-- The fence-stripping step of `safe_json_load` (`app.py:152`):
`text.replace("```json", "").replace("```", "").strip()`. -/
def stripFences (text : String) : String :=
  pyStrip (pyReplaceEmpty "```" (pyReplaceEmpty "```json" text))

/-- `safe_json_load` (`app.py:150-155`).  `json.loads` is the external
collaborator `loads` (`none` = the parse raised, swallowed by the bare
`except`).  On input `None` the `.replace` call raises `AttributeError`,
also swallowed, so the result is `None`. -/
def safe_json_load (loads : String → Option Json) : Option String → Option Json
  | none => none
  | some text => loads (stripFences text)

/-- Python `str.title()` for the ASCII range: the first letter of each
alphabetic run is uppercased, the rest lowercased (used at `app.py:207`). -/
def pyTitleAux : Bool → List Char → List Char
  | _, [] => []
  | prevAlpha, c :: cs =>
    if c.isAlpha then
      (if prevAlpha then c.toLower else c.toUpper) :: pyTitleAux true cs
    else
      c :: pyTitleAux false cs

/-- Python `str.title()` on a whole string. -/
def pyTitle (s : String) : String :=
  String.mk (pyTitleAux false s.toList)

/-- `re.split(r",|\n", response)` (`app.py:206`): split at every comma and
every newline. -/
def splitCommaNewline (s : String) : List String :=
  (pySplitChars (fun c => c = ',' || c = '\n') s.toList).map String.mk

/-- `generate_growth` (`app.py:196-207`), parameterised by the
`safe_llm_call` result (the prompt text itself is out of scope):
`if not response: return []` then
`[s.strip().title() for s in re.split(r",|\n", response) if s.strip()][:6]`. -/
def generate_growth (response : Option String) : List String :=
  match response with
  | none => []
  | some r =>
    if r = "" then []
    else
      (((splitCommaNewline r).filter (fun s => pyStrip s ≠ "")).map
          (fun s => pyTitle (pyStrip s))).take 6

/-- `generate_certifications` (`app.py:209-219`), parameterised by the
`safe_llm_call` result: `if not response: return []` then
`[c.strip() for c in response.split(",")][:6]` — note the split is on commas
only and empty tokens are kept. -/
def generate_certifications (response : Option String) : List String :=
  match response with
  | none => []
  | some r =>
    if r = "" then []
    else ((pySplit ',' r).map pyStrip).take 6

/-- The default platform directory `{"free": [], "paid": []}`
(`app.py:247`). -/
def defaultPlatforms : Json :=
  Json.obj [("free", Json.arr []), ("paid", Json.arr [])]

/-- `generate_platforms` (`app.py:221-247`), parameterised by the
`safe_llm_call` result and the `json.loads` collaborator:
`return safe_json_load(response) or {"free": [], "paid": []}`. -/
def generate_platforms (loads : String → Option Json) (response : Option String) :
    Json :=
  pyOrJson (safe_json_load loads response) defaultPlatforms

/-- `generate_market` (`app.py:249-255`):
`return safe_llm_call(...) or "Market data unavailable."`. -/
def generate_market (response : Option String) : String :=
  pyOrStr response "Market data unavailable."

/-- `generate_confidence` (`app.py:257-268`): `safe_llm_call(...) or` the
fixed fallback narrative. -/
def generate_confidence (response : Option String) : String :=
  pyOrStr response "Confidence: 70%\nRisk: Medium\nSummary: Moderate outlook."

/-- `generate_mcqs` (`app.py:270-287`), parameterised by the `safe_llm_call`
result: `return safe_json_load(response)` — no count or shape validation. -/
def generate_mcqs (loads : String → Option Json) (response : Option String) :
    Option Json :=
  safe_json_load loads response

/-! ## Generative Inference Client (`safe_llm_call`, `log_api_usage`) -/

/-- What one attempt of the `try` block at `app.py:137-146` can observe from
the external service:
* `createFailed` — `client.chat.completions.create` raised;
* `created c` — `create` returned; `c` is
  `response.choices[0].message.content`, where `none` makes the subsequent
  `.strip()` raise (caught by the same `except`). -/
inductive AttemptOutcome where
  | createFailed : AttemptOutcome
  | created : Option String → AttemptOutcome

/-- Observable outcome of one `safe_llm_call`: the returned value, the
usage-journal events appended by `log_api_usage` (`app.py:130-133`; the
wall-clock timestamp carries no logic and is not modelled, each event keeps
its `(event_type, status)` pair), the number of loop iterations executed,
and the total seconds slept. -/
structure CallResult where
  result : Option String
  events : List (String × String)
  attempts : ℕ
  slept : ℕ

/-- The retry loop of `safe_llm_call` (`app.py:135-148`): `fuel` is the
remaining iterations of `for attempt in range(retries)`, `i` the index of
the next attempt in the environment `outcome`.  Inside the `try`:
`log_api_usage(model, "SUCCESS")` runs as soon as `create` returns — before
`.strip()` — so a `created none` attempt journals SUCCESS and then falls
into the `except`, which sleeps 2 seconds.  After the loop,
`log_api_usage(model, "FAILED")` runs once and `None` is returned. -/
def safe_llm_loop (model : String) (outcome : ℕ → AttemptOutcome) :
    ℕ → ℕ → List (String × String) → ℕ → ℕ → CallResult
  | 0, _, events, attempts, slept =>
    ⟨none, events ++ [(model, "FAILED")], attempts, slept⟩
  | fuel + 1, i, events, attempts, slept =>
    match outcome i with
    | .createFailed =>
        safe_llm_loop model outcome fuel (i + 1) events (attempts + 1) (slept + 2)
    | .created none =>
        safe_llm_loop model outcome fuel (i + 1)
          (events ++ [(model, "SUCCESS")]) (attempts + 1) (slept + 2)
    | .created (some s) =>
        ⟨some (pyStrip s), events ++ [(model, "SUCCESS")], attempts + 1, slept⟩

/-- `safe_llm_call(model, messages, temperature=0.3, retries=2)`
(`app.py:135-148`) with its fixed default `retries=2`, run against the
attempt environment `outcome`. -/
def safe_llm_call (model : String) (outcome : ℕ → AttemptOutcome) : CallResult :=
  safe_llm_loop model outcome 2 0 [] 0 0

/-! ## Derived upskilling-duration metric -/

/-- Python `round(a / b)` for naturals `a`, `b` with `b ≠ 0`: true division
followed by round-half-to-even.  For the values reachable at `app.py:357`
(`a = len(growth) * 40 ≤ 240`, `b = hours ≤ 40`) the float `a / b` rounds to
the same integer as the exact rational — every exact-half quotient
`(2m+1)/2` is exactly representable in binary, and otherwise the quotient is
at least `1/80` away from a half, far beyond one ulp — so this model is
exact. -/
def pyRoundDiv (a b : ℕ) : ℕ :=
  let q := a / b
  let r := a % b
  if 2 * r < b then q
  else if 2 * r > b then q + 1
  else if q % 2 = 0 then q else q + 1

/-- `weeks = round((len(growth) * 40) / hours) if hours else 0`
(`app.py:357`): `if hours` is Python truthiness, i.e. `hours ≠ 0`. -/
def weeks_estimate (growth : List String) (hours : ℕ) : ℕ :=
  if hours ≠ 0 then pyRoundDiv (growth.length * 40) hours else 0

/-! ## Fan-out timing model (`app.py:350-355`)

`concurrent.futures` semantics, as a clock model: `submit` starts its task
immediately on a free worker (the default pool holds at least five workers,
and the source never has more than one task outstanding anyway) and returns
a future completing `duration` later; `Future.result` blocks the caller
until that completion. -/

/-- A pending task: the absolute time at which it completes. -/
structure Future where
  doneAt : ℕ

/-- `executor.submit(f, ...)` issued at time `now` for a task taking
`duration`: the task starts immediately. -/
def Executor.submit (now duration : ℕ) : Future :=
  ⟨now + duration⟩

/-- `future.result()` called at time `now`: returns once the task is done. -/
def Future.result (now : ℕ) (f : Future) : ℕ :=
  max now f.doneAt

/-- The fan-out block as written (`app.py:350-355`): each of the five
statements is `executor.submit(...).result()`, so the next `submit` only
executes after the previous `result()` returns.  Returns the time at which
the block finishes, starting from time 0. -/
def fanout_block_elapsed (dGrowth dCerts dMarket dConf dPlat : ℕ) : ℕ :=
  let t0 := 0
  let t1 := Future.result t0 (Executor.submit t0 dGrowth)
  let t2 := Future.result t1 (Executor.submit t1 dCerts)
  let t3 := Future.result t2 (Executor.submit t2 dMarket)
  let t4 := Future.result t3 (Executor.submit t3 dConf)
  Future.result t4 (Executor.submit t4 dPlat)

/-- Modelled from the spec: the fan-out the specification describes —
all five tasks submitted first (all start at time 0), results joined
afterwards — for comparison with `fanout_block_elapsed`. -/
def fanout_spec_elapsed (dGrowth dCerts dMarket dConf dPlat : ℕ) : ℕ :=
  let fGrowth := Executor.submit 0 dGrowth
  let fCerts := Executor.submit 0 dCerts
  let fMarket := Executor.submit 0 dMarket
  let fConf := Executor.submit 0 dConf
  let fPlat := Executor.submit 0 dPlat
  Future.result
    (Future.result
      (Future.result
        (Future.result
          (Future.result 0 fGrowth) fCerts) fMarket) fConf) fPlat

/-! ## Skill Intelligence analyze handler (`app.py:342-357`) -/

/-- The seven `safe_llm_call` sites a single analyze request reaches, in
program order: `detect_domain_cached` (`app.py:163-178`),
`infer_role_cached` (`app.py:180-192`), then the five fan-out calls.  The
`st.cache_data` wrappers are modelled at a cold cache (first request for
this input), where the wrapped body — and hence its `safe_llm_call` —
executes. -/
inductive CallSite where
  | domain | role | growth | certifications | market | confidence | platforms
  deriving DecidableEq, Repr

/-- The artifacts the analyze handler computes before rendering
(`app.py:344-357`). -/
structure Report where
  domain : String
  role : String
  growth : List String
  certifications : List String
  market : String
  confidence : String
  platforms : Json
  weeks : ℕ

/-- The body of the analyze button handler (`app.py:342-357`),
parameterised by the `safe_llm_call` result at each call site (`llm`) and
by `json.loads` (`loads`).  The handler reads `name`, `skills_input` and
`hours` from the widgets and — with no conditional whatsoever on `name` or
`skills_input` — normalizes the skills, resolves domain
(`detect_domain_cached`, fallback `"General Domain"`) and role
(`infer_role_cached`, fallback `"Specialist"`), runs the five dependent
calls, and computes `weeks`.  The second component is the trace of
`safe_llm_call` sites reached, in program order; each contributing step's
body contains exactly one unconditional `safe_llm_call` (`name` is never
read by this block at all — it is only used later by the separate feedback
handler at `app.py:400-413`). -/
def analyze_handler (llm : CallSite → Option String) (loads : String → Option Json)
    (name skills_input : String) (hours : ℕ) : Report × List CallSite :=
  let _skills := normalize_skills skills_input
  let _name := name
  let domain := pyOrStr (llm .domain) "General Domain"
  let role := pyOrStr (llm .role) "Specialist"
  let growth := generate_growth (llm .growth)
  let certifications := generate_certifications (llm .certifications)
  let market := generate_market (llm .market)
  let confidence := generate_confidence (llm .confidence)
  let platforms := generate_platforms loads (llm .platforms)
  let weeks := weeks_estimate growth hours
  (⟨domain, role, growth, certifications, market, confidence, platforms, weeks⟩,
    [CallSite.domain] ++ [CallSite.role] ++ [CallSite.growth] ++
      [CallSite.certifications] ++ [CallSite.market] ++ [CallSite.confidence] ++
      [CallSite.platforms])

/-! ## Mock Assessment generate-test handler (`app.py:440-446`) -/

/-- Outcome of pressing "Generate Test": either a question set is stored in
`st.session_state.mock_questions` (and from then on drives the scoring
form), or the handler reports "Failed to generate test questions.". -/
inductive GenTestOutcome where
  | exposed : Json → GenTestOutcome
  | genFailed : GenTestOutcome

/-- The "Generate Test" button handler (`app.py:440-446`):
`questions = generate_mcqs(skills, difficulty)` then
`if questions: st.session_state.mock_questions = questions else: st.error(...)`
— the sole gate is Python truthiness of the parsed value. -/
def generate_test_handler (loads : String → Option Json)
    (response : Option String) : GenTestOutcome :=
  match generate_mcqs loads response with
  | none => GenTestOutcome.genFailed
  | some j => if j.truthy then GenTestOutcome.exposed j else GenTestOutcome.genFailed

/-- Whether the external `create` call of an attempt returned (i.e. the
attempt reached the `log_api_usage(model, "SUCCESS")` line). -/
def AttemptOutcome.createdB : AttemptOutcome → Bool
  | .createFailed => false
  | .created _ => true

/-- Round-half-to-even on an exact rational: Python `round` (banker's
rounding) applied to the exact quotient.  For the operand range reachable
at `app.py:357` this agrees with Python's `round` on the float quotient
(see `pyRoundDiv`). -/
def roundHalfEven (q : ℚ) : ℤ :=
  if Int.fract q < 1 / 2 then ⌊q⌋
  else if 1 / 2 < Int.fract q then ⌊q⌋ + 1
  else if 2 ∣ ⌊q⌋ then ⌊q⌋ else ⌊q⌋ + 1

/-! ## Concrete collaborator instances (used by closed evaluations) -/

/-- A `json.loads` collaborator that fails on every text. -/
def loadsNone : String → Option Json := fun _ => none

/-- A `json.loads` collaborator whose only parse success is the text
`"[1]"`, read as the one-element array `[1]`. -/
def loadsOneItem : String → Option Json := fun t =>
  if t = "[1]" then some (Json.arr [Json.num 1]) else none

/-- A `json.loads` collaborator parsing exactly the texts `"{}"` and
`"[]"`, to their (falsy) empty-container values. -/
def loadsEmptyContainers : String → Option Json := fun t =>
  if t = "\x7b\x7d" then some (Json.obj [])
  else if t = "[]" then some (Json.arr []) else none

/-- A generative service for which every `safe_llm_call` returns the
no-result sentinel. -/
def llmNone : CallSite → Option String := fun _ => none

/-- A generative service answering every call with text that is not
well-formed JSON. -/
def llmNotJson : CallSite → Option String := fun _ => some "not json"

/-! ## Helper lemmas -/

/-- Lowercasing preserves (non-)emptiness. -/
theorem pyLower_eq_empty_iff (s : String) : pyLower s = "" ↔ s = "" := by
  constructor
  · intro h
    have hdata : (s.toList.map Char.toLower) = [] := by
      have := congrArg String.toList h
      simpa [pyLower] using this
    have : s.toList = [] := by simpa using hdata
    cases s with
    | mk data =>
      have hd : data = [] := by simpa [String.toList] using this
      rw [hd]
  · intro h
    subst h
    rfl

/-- Integer-arithmetic rounding of `app.py:357` agrees with
round-half-to-even on the exact rational quotient. -/
theorem pyRoundDiv_eq_roundHalfEven (a b : ℕ) (hb : 0 < b) :
    (pyRoundDiv a b : ℤ) = roundHalfEven ((a : ℚ) / (b : ℚ)) := by
  have hbQ : (0 : ℚ) < (b : ℚ) := by exact_mod_cast hb
  have hfloor : ⌊(a : ℚ) / (b : ℚ)⌋ = ((a / b : ℕ) : ℤ) := by
    rw [← Nat.floor_div_eq_div (α := ℚ) a b]
    exact (Int.natCast_floor_eq_floor (by positivity)).symm
  have hmod : b * (a / b) + a % b = a := Nat.div_add_mod a b
  have hQ : (b : ℚ) * ((a / b : ℕ) : ℚ) + ((a % b : ℕ) : ℚ) = (a : ℚ) := by
    exact_mod_cast congrArg (Nat.cast : ℕ → ℚ) hmod
  have hfract : Int.fract ((a : ℚ) / (b : ℚ)) = ((a % b : ℕ) : ℚ) / (b : ℚ) := by
    rw [Int.fract, hfloor, Int.cast_natCast, ← hQ]
    field_simp
  have hlt : (Int.fract ((a : ℚ) / (b : ℚ)) < 1 / 2) ↔ 2 * (a % b) < b := by
    rw [hfract, div_lt_div_iff₀ hbQ (by norm_num : (0 : ℚ) < 2)]
    constructor
    · intro h
      have h2 : (a % b) * 2 < 1 * b := by exact_mod_cast h
      omega
    · intro h
      have h2 : (a % b) * 2 < 1 * b := by omega
      exact_mod_cast h2
  have hgt : (1 / 2 < Int.fract ((a : ℚ) / (b : ℚ))) ↔ b < 2 * (a % b) := by
    rw [hfract, div_lt_div_iff₀ (by norm_num : (0 : ℚ) < 2) hbQ]
    constructor
    · intro h
      have h2 : 1 * b < (a % b) * 2 := by exact_mod_cast h
      omega
    · intro h
      have h2 : 1 * b < (a % b) * 2 := by omega
      exact_mod_cast h2
  have hdvd : (2 ∣ ⌊(a : ℚ) / (b : ℚ)⌋) ↔ (a / b) % 2 = 0 := by
    rw [hfloor]
    constructor
    · intro h
      have h2 : (2 : ℕ) ∣ (a / b) := by exact_mod_cast h
      omega
    · intro h
      have h2 : (2 : ℕ) ∣ (a / b) := by omega
      exact_mod_cast h2
  by_cases h1 : 2 * (a % b) < b
  · have hpd : pyRoundDiv a b = a / b := by simp [pyRoundDiv, h1]
    rw [hpd, roundHalfEven, if_pos (hlt.mpr h1), hfloor]
  · by_cases h2 : b < 2 * (a % b)
    · have hpd : pyRoundDiv a b = a / b + 1 := by simp [pyRoundDiv, h1, h2]
      rw [hpd, roundHalfEven, if_neg (by rw [hlt]; omega), if_pos (hgt.mpr h2),
        hfloor]
      push_cast
      ring
    · by_cases h3 : (a / b) % 2 = 0
      · have hpd : pyRoundDiv a b = a / b := by simp [pyRoundDiv, h1, h2, h3]
        rw [hpd, roundHalfEven, if_neg (by rw [hlt]; omega),
          if_neg (by rw [hgt]; omega), if_pos (hdvd.mpr h3), hfloor]
      · have hpd : pyRoundDiv a b = a / b + 1 := by simp [pyRoundDiv, h1, h2, h3]
        rw [hpd, roundHalfEven, if_neg (by rw [hlt]; omega),
          if_neg (by rw [hgt]; omega), if_neg (fun hd => h3 (hdvd.mp hd)), hfloor]
        push_cast
        ring

/-! ## Claims -/

/-- Claim C1, counterexample: a Skill Intelligence analyze request with
empty name and empty skill text is NOT rejected — the handler still reaches
external generative call sites (seven of them, the first being domain
classification) and produces a report, contradicting "rejected before any
external generative call is made". -/
theorem analyze_empty_input_not_rejected :
    (analyze_handler llmNone loadsNone "" "" 10).2 ≠ [] ∧
    CallSite.domain ∈ (analyze_handler llmNone loadsNone "" "" 10).2 ∧
    (analyze_handler llmNone loadsNone "" "" 10).2.length = 7 ∧
    (analyze_handler llmNone loadsNone "" "" 10).1.domain = "General Domain" :=
  ⟨by decide, by decide, by decide, by decide⟩

/-- Claim C1, amended: the analyze handler performs no input validation at
all — for every name, skill text and hours value it executes all seven
generative call sites (domain, role, and the five fan-out calls) in program
order and produces a report; no condition stops processing. -/
theorem analyze_handler_never_stops (llm : CallSite → Option String)
    (loads : String → Option Json) (name skills_input : String) (hours : ℕ) :
    (analyze_handler llm loads name skills_input hours).2 =
      [CallSite.domain, CallSite.role, CallSite.growth, CallSite.certifications,
        CallSite.market, CallSite.confidence, CallSite.platforms] ∧
    (analyze_handler llm loads name skills_input hours).2.length = 7 :=
  ⟨rfl, rfl⟩

/-- Claim C2, counterexample: a generated MCQ set parsing to a one-element
JSON array is exposed to the assessment/scoring flow even though it does not
contain 10 items — no partial-set check exists. -/
theorem partial_mcq_set_exposed :
    generate_test_handler loadsOneItem (some "[1]") =
      GenTestOutcome.exposed (Json.arr [Json.num 1]) ∧
    [Json.num 1].length ≠ 10 := by
  constructor
  · rfl
  · decide

/-- Claim C2, amended: the Generate Test handler exposes a generated MCQ set
to scoring exactly when its parsed JSON value is Python-truthy (any
non-empty array or object, regardless of item count); only a parse failure
or a falsy parse result is treated as generation-failed.  No
exactly-10-items condition is enforced. -/
theorem generate_test_gate_is_truthiness (loads : String → Option Json)
    (response : Option String) :
    (generate_test_handler loads response = GenTestOutcome.genFailed ↔
      pyTruthyOpt (generate_mcqs loads response) = false) ∧
    (∀ j, generate_test_handler loads response = GenTestOutcome.exposed j →
      generate_mcqs loads response = some j ∧ j.truthy = true) := by
  constructor
  · rw [generate_test_handler]
    cases hq : generate_mcqs loads response with
    | none => simp [pyTruthyOpt]
    | some j =>
      by_cases ht : j.truthy <;> simp [pyTruthyOpt, ht]
  · intro j hj
    rw [generate_test_handler] at hj
    cases hq : generate_mcqs loads response with
    | none => rw [hq] at hj; exact absurd hj (by simp)
    | some j' =>
      rw [hq] at hj
      dsimp only at hj
      by_cases ht : j'.truthy
      · rw [if_pos ht] at hj
        cases hj
        exact ⟨rfl, ht⟩
      · rw [if_neg ht] at hj
        exact absurd hj (by simp)

/-- Claim C2, witness: the amended gate evaluated for the concrete exposed
one-item set. -/
theorem generate_test_gate_witness :
    generate_mcqs loadsOneItem (some "[1]") = some (Json.arr [Json.num 1]) ∧
    (Json.arr [Json.num 1]).truthy = true :=
  (generate_test_gate_is_truthiness loadsOneItem (some "[1]")).2
    (Json.arr [Json.num 1]) (by rfl)

/-- Claim C3: the fan-out block of `app.py:350-355` joins each future
immediately after submitting it, so the five dependent calls run one after
another: its elapsed time is the SUM of the five call durations, not the
maximum.  With all five durations equal to 1, the block as written finishes
at time 5 while the submit-all-then-join fan-out the specification describes
finishes at time 1. -/
theorem fanout_joined_immediately_is_sequential :
    (∀ d1 d2 d3 d4 d5 : ℕ,
        fanout_block_elapsed d1 d2 d3 d4 d5 = d1 + d2 + d3 + d4 + d5) ∧
    fanout_block_elapsed 1 1 1 1 1 = 5 ∧
    fanout_spec_elapsed 1 1 1 1 1 = 1 ∧
    ¬ fanout_block_elapsed 1 1 1 1 1 ≤ 1 := by
  refine ⟨?_, by decide, by decide, by decide⟩
  intro d1 d2 d3 d4 d5
  simp only [fanout_block_elapsed, Future.result, Executor.submit]
  omega

/-- Claim C4, counterexample: a `safe_llm_call` whose first attempt's
external `create` raises and whose second attempt succeeds makes 2 attempts
but appends exactly 1 usage-journal event (the SUCCESS of the second
attempt) — the failed first attempt is never journaled, so events per call
do not equal attempts per call. -/
theorem usage_events_not_per_attempt :
    (safe_llm_call "llama-3.1-8b-instant"
        (fun i => if i = 0 then AttemptOutcome.createFailed
          else AttemptOutcome.created (some "ok"))).attempts = 2 ∧
    (safe_llm_call "llama-3.1-8b-instant"
        (fun i => if i = 0 then AttemptOutcome.createFailed
          else AttemptOutcome.created (some "ok"))).events.length = 1 ∧
    (1 : ℕ) ≠ 2 :=
  ⟨rfl, rfl, by decide⟩

/-- Claim C4, amended: one `safe_llm_call` journals one SUCCESS event per
attempt whose external `create` call returned (even when response handling
then fails), plus exactly one FAILED event if the call returns the
no-result sentinel — so the event count equals the number of
create-successful attempts plus one on exhaustion, not the number of
attempts; every event records the target model and a SUCCESS/FAILED
outcome. -/
theorem usage_events_per_call (model : String) (outcome : ℕ → AttemptOutcome) :
    (safe_llm_call model outcome).events.length =
      ((List.range (safe_llm_call model outcome).attempts).filter
          (fun i => (outcome i).createdB)).length +
        (if (safe_llm_call model outcome).result = none then 1 else 0) ∧
    (∀ e ∈ (safe_llm_call model outcome).events,
        e.1 = model ∧ (e.2 = "SUCCESS" ∨ e.2 = "FAILED")) := by
  rcases h0 : outcome 0 with _ | c0
  · rcases h1 : outcome 1 with _ | c1
    · have hc : safe_llm_call model outcome = ⟨none, [(model, "FAILED")], 2, 4⟩ := by
        simp [safe_llm_call, safe_llm_loop, h0, h1]
      rw [hc]
      constructor
      · simp [List.range_succ, h0, h1, AttemptOutcome.createdB]
      · intro e he
        simp only [List.mem_singleton] at he
        subst he
        exact ⟨rfl, Or.inr rfl⟩
    · rcases c1 with _ | s1
      · have hc : safe_llm_call model outcome =
            ⟨none, [(model, "SUCCESS"), (model, "FAILED")], 2, 4⟩ := by
          simp [safe_llm_call, safe_llm_loop, h0, h1]
        rw [hc]
        constructor
        · simp [List.range_succ, h0, h1, AttemptOutcome.createdB]
        · intro e he
          simp only [List.mem_cons, List.mem_singleton] at he
          rcases he with rfl | rfl | h
          · exact ⟨rfl, Or.inl rfl⟩
          · exact ⟨rfl, Or.inr rfl⟩
          · exact absurd h (by simp)
      · have hc : safe_llm_call model outcome =
            ⟨some (pyStrip s1), [(model, "SUCCESS")], 2, 2⟩ := by
          simp [safe_llm_call, safe_llm_loop, h0, h1]
        rw [hc]
        constructor
        · simp [List.range_succ, h0, h1, AttemptOutcome.createdB]
        · intro e he
          simp only [List.mem_singleton] at he
          subst he
          exact ⟨rfl, Or.inl rfl⟩
  · rcases c0 with _ | s0
    · rcases h1 : outcome 1 with _ | c1
      · have hc : safe_llm_call model outcome =
            ⟨none, [(model, "SUCCESS"), (model, "FAILED")], 2, 4⟩ := by
          simp [safe_llm_call, safe_llm_loop, h0, h1]
        rw [hc]
        constructor
        · simp [List.range_succ, h0, h1, AttemptOutcome.createdB]
        · intro e he
          simp only [List.mem_cons, List.mem_singleton] at he
          rcases he with rfl | rfl | h
          · exact ⟨rfl, Or.inl rfl⟩
          · exact ⟨rfl, Or.inr rfl⟩
          · exact absurd h (by simp)
      · rcases c1 with _ | s1
        · have hc : safe_llm_call model outcome =
              ⟨none, [(model, "SUCCESS"), (model, "SUCCESS"), (model, "FAILED")],
                2, 4⟩ := by
            simp [safe_llm_call, safe_llm_loop, h0, h1]
          rw [hc]
          constructor
          · simp [List.range_succ, h0, h1, AttemptOutcome.createdB]
          · intro e he
            simp only [List.mem_cons, List.mem_singleton] at he
            rcases he with rfl | rfl | rfl | h
            · exact ⟨rfl, Or.inl rfl⟩
            · exact ⟨rfl, Or.inl rfl⟩
            · exact ⟨rfl, Or.inr rfl⟩
            · exact absurd h (by simp)
        · have hc : safe_llm_call model outcome =
              ⟨some (pyStrip s1), [(model, "SUCCESS"), (model, "SUCCESS")],
                2, 2⟩ := by
            simp [safe_llm_call, safe_llm_loop, h0, h1]
          rw [hc]
          constructor
          · simp [List.range_succ, h0, h1, AttemptOutcome.createdB]
          · intro e he
            simp only [List.mem_cons, List.mem_singleton] at he
            rcases he with rfl | rfl | h
            · exact ⟨rfl, Or.inl rfl⟩
            · exact ⟨rfl, Or.inl rfl⟩
            · exact absurd h (by simp)
    · have hc : safe_llm_call model outcome =
          ⟨some (pyStrip s0), [(model, "SUCCESS")], 1, 0⟩ := by
        simp [safe_llm_call, safe_llm_loop, h0]
      rw [hc]
      constructor
      · simp [List.range_succ, h0, AttemptOutcome.createdB]
      · intro e he
        simp only [List.mem_singleton] at he
        subst he
        exact ⟨rfl, Or.inl rfl⟩

/-- Claim C4, witness: the amended event shape at a concrete call. -/
theorem usage_events_per_call_witness :
    ("m", "SUCCESS").1 = "m" ∧
    (("m", "SUCCESS").2 = "SUCCESS" ∨ ("m", "SUCCESS").2 = "FAILED") :=
  (usage_events_per_call "m" (fun _ => AttemptOutcome.created (some "ok"))).2
    ("m", "SUCCESS") (by decide)

/-- Claim C5: `safe_llm_call` makes at most 2 attempts, sleeps exactly 2
seconds after each failed attempt (and only after failed attempts), returns
either the stripped text of a successful attempt or the `None` sentinel
after exhausting both attempts, and — being a total function over all
modelled attempt outcomes, exceptions included — never propagates an
exception to its caller. -/
theorem safe_llm_call_retry_policy (model : String) (outcome : ℕ → AttemptOutcome) :
    (safe_llm_call model outcome).attempts ≤ 2 ∧
    (safe_llm_call model outcome).slept =
      2 * ((safe_llm_call model outcome).attempts -
        (if (safe_llm_call model outcome).result.isSome then 1 else 0)) ∧
    (∀ t, (safe_llm_call model outcome).result = some t →
        ∃ i, i < 2 ∧ ∃ s, outcome i = AttemptOutcome.created (some s) ∧
          t = pyStrip s) ∧
    ((safe_llm_call model outcome).result = none →
      (safe_llm_call model outcome).attempts = 2) := by
  rcases h0 : outcome 0 with _ | c0
  · rcases h1 : outcome 1 with _ | c1
    · have hc : safe_llm_call model outcome = ⟨none, [(model, "FAILED")], 2, 4⟩ := by
        simp [safe_llm_call, safe_llm_loop, h0, h1]
      rw [hc]
      exact ⟨by norm_num, by norm_num, fun t ht => absurd ht (by simp), fun _ => rfl⟩
    · rcases c1 with _ | s1
      · have hc : safe_llm_call model outcome =
            ⟨none, [(model, "SUCCESS"), (model, "FAILED")], 2, 4⟩ := by
          simp [safe_llm_call, safe_llm_loop, h0, h1]
        rw [hc]
        exact ⟨by norm_num, by norm_num, fun t ht => absurd ht (by simp), fun _ => rfl⟩
      · have hc : safe_llm_call model outcome =
            ⟨some (pyStrip s1), [(model, "SUCCESS")], 2, 2⟩ := by
          simp [safe_llm_call, safe_llm_loop, h0, h1]
        rw [hc]
        refine ⟨by norm_num, by norm_num, ?_, fun h => absurd h (by simp)⟩
        intro t ht
        exact ⟨1, by norm_num, s1, h1, (Option.some.inj ht).symm⟩
  · rcases c0 with _ | s0
    · rcases h1 : outcome 1 with _ | c1
      · have hc : safe_llm_call model outcome =
            ⟨none, [(model, "SUCCESS"), (model, "FAILED")], 2, 4⟩ := by
          simp [safe_llm_call, safe_llm_loop, h0, h1]
        rw [hc]
        exact ⟨by norm_num, by norm_num, fun t ht => absurd ht (by simp), fun _ => rfl⟩
      · rcases c1 with _ | s1
        · have hc : safe_llm_call model outcome =
              ⟨none, [(model, "SUCCESS"), (model, "SUCCESS"), (model, "FAILED")],
                2, 4⟩ := by
            simp [safe_llm_call, safe_llm_loop, h0, h1]
          rw [hc]
          exact ⟨by norm_num, by norm_num, fun t ht => absurd ht (by simp),
            fun _ => rfl⟩
        · have hc : safe_llm_call model outcome =
              ⟨some (pyStrip s1), [(model, "SUCCESS"), (model, "SUCCESS")],
                2, 2⟩ := by
            simp [safe_llm_call, safe_llm_loop, h0, h1]
          rw [hc]
          refine ⟨by norm_num, by norm_num, ?_, fun h => absurd h (by simp)⟩
          intro t ht
          exact ⟨1, by norm_num, s1, h1, (Option.some.inj ht).symm⟩
    · have hc : safe_llm_call model outcome =
          ⟨some (pyStrip s0), [(model, "SUCCESS")], 1, 0⟩ := by
        simp [safe_llm_call, safe_llm_loop, h0]
      rw [hc]
      refine ⟨by norm_num, by norm_num, ?_, fun h => absurd h (by simp)⟩
      intro t ht
      exact ⟨0, by norm_num, s0, h0, (Option.some.inj ht).symm⟩

/-- Claim C5, witness: a call whose first attempt succeeds with `" hi "`
returns the stripped text `"hi"`. -/
theorem safe_llm_call_retry_policy_witness :
    ∃ i, i < 2 ∧ ∃ s,
      (fun _ : ℕ => AttemptOutcome.created (some " hi ")) i =
        AttemptOutcome.created (some s) ∧ "hi" = pyStrip s :=
  (safe_llm_call_retry_policy "m"
      (fun _ => AttemptOutcome.created (some " hi "))).2.2.1 "hi" rfl

/-- Claim C6, counterexample: the certification parser keeps empty tokens
(response `"a,,b"` yields a list containing `""`) and does not split on
newlines (a newline-separated pair stays a single entry), contradicting
"splits on comma or newline ... drops empty tokens". -/
theorem certifications_keep_empty_tokens :
    ("" ∈ generate_certifications (some "a,,b")) ∧
    generate_certifications (some "a,,b") = ["a", "", "b"] ∧
    generate_certifications (some "AWS SAA\nCISSP") = ["AWS SAA\nCISSP"] :=
  ⟨by decide, by decide, by decide⟩

/-- Claim C6, amended: for every generative response the certification
parser splits on commas only, trims each token, preserves each name's
original casing (every entry is exactly the strip of one comma-separated
token of the response), keeps empty tokens, and truncates to the first 6 —
so the returned list has at most 6 entries but may contain empty strings,
and newline-separated names are not split apart. -/
theorem generate_certifications_amended (response : Option String) :
    (generate_certifications response).length ≤ 6 ∧
    ∀ c ∈ generate_certifications response,
      ∃ r, response = some r ∧ ∃ tok ∈ pySplit ',' r, c = pyStrip tok := by
  constructor
  · cases response with
    | none => simp [generate_certifications]
    | some r =>
      by_cases hr : r = "" <;>
        simp [generate_certifications, hr, List.length_take]
  · intro c hc
    cases response with
    | none => simp [generate_certifications] at hc
    | some r =>
      by_cases hr : r = ""
      · simp [generate_certifications, hr] at hc
      · refine ⟨r, rfl, ?_⟩
        rw [generate_certifications] at hc
        simp only [hr, if_neg] at hc
        have hc' := List.take_subset 6 _ hc
        rw [List.mem_map] at hc'
        obtain ⟨tok, htok, heq⟩ := hc'
        exact ⟨tok, htok, heq.symm⟩

/-- Claim C6, witness: the amended parsing shape at the concrete response
`"a,,b"`, whose middle entry is the strip of an empty token. -/
theorem generate_certifications_amended_witness :
    ∃ r, (some "a,,b") = some r ∧ ∃ tok ∈ pySplit ',' r, "" = pyStrip tok :=
  (generate_certifications_amended (some "a,,b")).2 "" (by decide)

/-- Claim C7: when the platform-directory response text fails to parse as
JSON (after stripping Markdown fences), the platform directory is exactly
`{"free": [], "paid": []}`, no error escapes (the parse is a total
function), and the rest of the report is unaffected — the handler still
completes all seven call sites and produces the report. -/
theorem platforms_default_on_parse_failure
    (loads : String → Option Json) (llm : CallSite → Option String)
    (name skills_input : String) (hours : ℕ) (s : String)
    (hresp : llm CallSite.platforms = some s)
    (hparse : loads (stripFences s) = none) :
    generate_platforms loads (llm CallSite.platforms) = defaultPlatforms ∧
    (analyze_handler llm loads name skills_input hours).1.platforms =
      defaultPlatforms ∧
    (analyze_handler llm loads name skills_input hours).2.length = 7 := by
  have h1 : generate_platforms loads (llm CallSite.platforms) = defaultPlatforms := by
    rw [hresp, generate_platforms, safe_json_load, hparse]
    rfl
  exact ⟨h1, h1, rfl⟩

/-- Claim C7, witness: a concrete run in which every model response is
non-JSON text still produces a full report with the default platform
directory. -/
theorem platforms_default_witness :
    generate_platforms loadsNone (llmNotJson CallSite.platforms) = defaultPlatforms ∧
    (analyze_handler llmNotJson loadsNone "u" "python" 10).1.platforms =
      defaultPlatforms ∧
    (analyze_handler llmNotJson loadsNone "u" "python" 10).2.length = 7 :=
  platforms_default_on_parse_failure loadsNone llmNotJson "u" "python" 10
    "not json" rfl rfl

/-- Claim C8: the estimated upskilling duration is 0 when weekly hours is 0
(guarded, not an error), equals Python `round(len(growth) * 40 / hours)` —
round-half-to-even on the exact quotient, which coincides with the float
computation on the reachable operand range — for positive hours, and for 6
growth skills at 10 hours/week equals 24. -/
theorem weeks_estimate_spec :
    (∀ growth : List String, weeks_estimate growth 0 = 0) ∧
    (∀ (growth : List String) (hours : ℕ), 0 < hours →
        (weeks_estimate growth hours : ℤ) =
          roundHalfEven (((growth.length * 40 : ℕ) : ℚ) / (hours : ℚ))) ∧
    weeks_estimate ["a", "b", "c", "d", "e", "f"] 10 = 24 := by
  refine ⟨fun growth => rfl, ?_, by decide⟩
  intro growth hours hh
  rw [weeks_estimate, if_pos (Nat.pos_iff_ne_zero.mp hh)]
  exact pyRoundDiv_eq_roundHalfEven (growth.length * 40) hours hh

/-- Claim C8, witness: the rounding identity instantiated at 6 growth
skills and 10 weekly hours. -/
theorem weeks_estimate_spec_witness :
    (weeks_estimate ["a", "b", "c", "d", "e", "f"] 10 : ℤ) =
      roundHalfEven (((["a", "b", "c", "d", "e", "f"].length * 40 : ℕ) : ℚ) /
        ((10 : ℕ) : ℚ)) :=
  weeks_estimate_spec.2.1 ["a", "b", "c", "d", "e", "f"] 10 (by decide)

/-- Claim C9: the Skill Normalizer's output has no duplicates and no empty
entries, every entry is the lowercased strip of some comma-separated token
of the input (whose strip is non-empty), the empty input yields the empty
set, and `"Python, python , PYTHON"` normalizes to exactly `{"python"}`. -/
theorem normalize_skills_spec :
    (∀ input : String, (normalize_skills input).Nodup) ∧
    (∀ input : String, "" ∉ normalize_skills input) ∧
    (∀ input : String, ∀ s ∈ normalize_skills input,
        ∃ tok ∈ pySplit ',' input, s = pyLower (pyStrip tok) ∧ pyStrip tok ≠ "") ∧
    normalize_skills "" = [] ∧
    normalize_skills "Python, python , PYTHON" = ["python"] := by
  refine ⟨fun input => List.nodup_dedup _, ?_, ?_, by decide, by decide⟩
  · intro input hmem
    rw [normalize_skills, List.mem_dedup, List.mem_map] at hmem
    obtain ⟨tok, htok, heq⟩ := hmem
    rw [List.mem_filter] at htok
    have hne : pyStrip tok ≠ "" := by simpa using htok.2
    exact hne ((pyLower_eq_empty_iff _).mp heq)
  · intro input s hmem
    rw [normalize_skills, List.mem_dedup, List.mem_map] at hmem
    obtain ⟨tok, htok, heq⟩ := hmem
    rw [List.mem_filter] at htok
    exact ⟨tok, htok.1, heq.symm, by simpa using htok.2⟩

/-- Claim C9, witness: the normalized entry `"python"` of the example input
is the lowercased strip of one of its comma-separated tokens. -/
theorem normalize_skills_spec_witness :
    ∃ tok ∈ pySplit ',' "Python, python , PYTHON",
      "python" = pyLower (pyStrip tok) ∧ pyStrip tok ≠ "" :=
  normalize_skills_spec.2.2.1 "Python, python , PYTHON" "python" (by decide)

/-- Claim C10: `safe_json_load` is total — it returns a parsed value or
`None` for every input, including the `None` sentinel (whose internal
`.replace` error is swallowed) — and `generate_platforms` returns exactly
`{"free": [], "paid": []}` whenever the parse result is Python-falsy, which
includes the well-formed JSON texts `"{}"` and `"[]"` as well as every
malformed text and the `None` response. -/
theorem safe_json_load_total_and_falsy_defaults (loads : String → Option Json) :
    safe_json_load loads none = none ∧
    generate_platforms loads none = defaultPlatforms ∧
    (∀ response, pyTruthyOpt (safe_json_load loads response) = false →
        generate_platforms loads response = defaultPlatforms) ∧
    (loads "\x7b\x7d" = some (Json.obj []) →
        generate_platforms loads (some "\x7b\x7d") = defaultPlatforms) ∧
    (loads "[]" = some (Json.arr []) →
        generate_platforms loads (some "[]") = defaultPlatforms) := by
  refine ⟨rfl, rfl, ?_, ?_, ?_⟩
  · intro response h
    rw [generate_platforms, pyOrJson.eq_def]
    cases hr : safe_json_load loads response with
    | none => rfl
    | some j =>
      rw [hr] at h
      simp only [pyTruthyOpt] at h
      simp [h]
  · intro h
    have hs : stripFences "\x7b\x7d" = "\x7b\x7d" := by decide
    rw [generate_platforms, safe_json_load, hs, h]
    rfl
  · intro h
    have hs : stripFences "[]" = "[]" := by decide
    rw [generate_platforms, safe_json_load, hs, h]
    rfl

/-- Claim C10, witness: a collaborator that parses `"{}"` to the empty
object still yields the default platform directory. -/
theorem safe_json_load_falsy_witness :
    generate_platforms loadsEmptyContainers (some "\x7b\x7d") = defaultPlatforms :=
  (safe_json_load_total_and_falsy_defaults loadsEmptyContainers).2.2.2.1 rfl

end FutureProof
